import Mathlib

/-!
Shallow embedding of `src/bot.py` (grana-metro-bot): a Telegram bot for the
Granada metro.  The bot keeps two JSON-file-backed stores —

  * `favoritos` : user id (int) → set of stop ids (str), capped at 5;
  * `alertas`   : user id (str) → list of `[stop id, minute threshold, direction]`;

and renders arrival information fetched from a transit HTTP API.  Pure
functions below translate the bot's handlers; the external API is passed in
as a function `fetch : String → Option (List Arrival)` where `none` models a
request that raised or returned a non-success status.  Python `dict`s are
embedded either as association lists (when iteration order matters) or as
total functions with default value (when only lookup matters); Python `int`
is embedded as `Int` and its decimal `str`/`int` conversions as `intToStr`
and `strToInt` below.
-/

namespace GranaMetro

/-- An arrival returned by the transit API for a stop: a
`(minutes-until-arrival, direction)` pair (`t["minutos"]`, `t["direccion"]`
in `bot.py`). -/
structure Arrival where
  minutos : Int
  direccion : String
deriving DecidableEq

/-- A stored alert `[parada_id, umbral, direccion]` as kept in `alertas`. -/
structure Alert where
  pid : String
  umbral : Int
  direccion : String
deriving DecidableEq

/-! ### Decimal conversion: the embedding of Python `str(int)` / `int(str)` -/

/-- Decimal digits of a natural number, most significant first
(the digit string Python's `str` produces for a non-negative int). -/
def natDigits (n : Nat) : List Char :=
  if _h : n < 10 then [Nat.digitChar n]
  else natDigits (n / 10) ++ [Nat.digitChar (n % 10)]
  decreasing_by exact Nat.div_lt_self (by omega) (by omega)

/-- Python `str` on a non-negative int. -/
def natToStr (n : Nat) : String := String.mk (natDigits n)

/-- Python `str` on an int. -/
def intToStr (i : Int) : String :=
  if i < 0 then "-" ++ natToStr (-i).toNat else natToStr i.toNat

/-- Python `int` on a string of decimal digits. -/
def strToNat (s : String) : Nat :=
  s.data.foldl (fun acc c => acc * 10 + (c.toNat - 48)) 0

/-- Python `int` on an optionally `-`-signed string of decimal digits. -/
def strToInt (s : String) : Int :=
  if s.data.head? = some '-' then - (strToNat (String.mk (s.data.drop 1)))
  else (strToNat s : Int)

theorem digitChar_toNat (d : Nat) (hd : d < 10) : (Nat.digitChar d).toNat - 48 = d := by
  interval_cases d <;> decide

theorem digitChar_isDigitLike (d : Nat) (hd : d < 10) :
    48 ≤ (Nat.digitChar d).toNat ∧ (Nat.digitChar d).toNat ≤ 57 := by
  interval_cases d <;> decide

theorem natDigits_ne_nil (n : Nat) : natDigits n ≠ [] := by
  rw [natDigits]
  split
  · simp
  · simp

theorem mem_natDigits (n : Nat) (c : Char) (hc : c ∈ natDigits n) :
    ∃ d, d < 10 ∧ c = Nat.digitChar d := by
  induction n using Nat.strong_induction_on with
  | _ n ih =>
    rw [natDigits] at hc
    split at hc
    · next h =>
      simp at hc
      exact ⟨n, h, hc⟩
    · next h =>
      rw [List.mem_append] at hc
      rcases hc with hc | hc
      · exact ih (n / 10) (Nat.div_lt_self (by omega) (by omega)) hc
      · simp at hc
        exact ⟨n % 10, Nat.mod_lt _ (by omega), hc⟩

theorem strToNat_natToStr (n : Nat) : strToNat (natToStr n) = n := by
  suffices h : ∀ m, List.foldl (fun acc c => acc * 10 + (c.toNat - 48)) 0 (natDigits m) = m by
    simpa [strToNat, natToStr] using h n
  intro m
  induction m using Nat.strong_induction_on with
  | _ m ih =>
    rw [natDigits]
    split
    · next h =>
      simp [digitChar_toNat m h]
    · next h =>
      rw [List.foldl_append]
      rw [ih (m / 10) (Nat.div_lt_self (by omega) (by omega))]
      simp [digitChar_toNat (m % 10) (Nat.mod_lt _ (by omega))]
      omega

theorem natDigits_head_ne_minus (n : Nat) (c : Char) (rest : List Char)
    (h : natDigits n = c :: rest) : c ≠ '-' := by
  have hmem : c ∈ natDigits n := by rw [h]; exact List.mem_cons_self _ _
  obtain ⟨d, hd, hcd⟩ := mem_natDigits n c hmem
  subst hcd
  have := digitChar_isDigitLike d hd
  intro hcon
  rw [hcon] at this
  simp at this

theorem strToInt_intToStr (i : Int) : strToInt (intToStr i) = i := by
  by_cases hi : i < 0
  · simp only [intToStr, if_pos hi]
    have hdata : ("-" ++ natToStr (-i).toNat).data = '-' :: (natToStr (-i).toNat).data := rfl
    rw [strToInt, hdata]
    simp only [List.head?_cons, List.drop_succ_cons, List.drop_zero]
    rw [if_pos trivial]
    have hmk : String.mk (natToStr (-i).toNat).data = natToStr (-i).toNat := rfl
    rw [hmk, strToNat_natToStr]
    omega
  · simp only [intToStr, if_neg hi]
    obtain ⟨c, rest, hc⟩ : ∃ c rest, natDigits i.toNat = c :: rest := by
      cases hnd : natDigits i.toNat with
      | nil => exact absurd hnd (natDigits_ne_nil _)
      | cons c rest => exact ⟨c, rest, rfl⟩
    have hdata : (natToStr i.toNat).data = c :: rest := by simp [natToStr, hc]
    have hne : c ≠ '-' := natDigits_head_ne_minus _ _ _ hc
    rw [strToInt, hdata]
    simp only [List.head?]
    rw [if_neg (by simpa using hne)]
    rw [strToNat_natToStr]
    omega

/-! ### Favorites: in-memory store and operations

`favoritos` maps a user id (Python int) to a set of stop ids.  For the
toggle/delete operations only lookup matters, so the dict is embedded as a
total function `Int → Finset String` whose default value is the empty set
(this is exactly what `favoritos.setdefault(user, set())` and
`favoritos.get(user, set())` observe). -/

/-- `toggle_fav_callback`'s state change and reply message (`bot.py`
lines 228-242): remove `pid` when present; otherwise add it unless the
user already has 5 favorites. -/
def toggle_fav (favoritos : Int → Finset String) (user : Int) (pid : String) :
    (Int → Finset String) × String :=
  let favs := favoritos user
  if pid ∈ favs then
    (Function.update favoritos user (favs.erase pid), "❌ Parada eliminada de favoritas.")
  else if 5 ≤ favs.card then
    (favoritos, "⚠️ Límite de 5 favoritas alcanzado.")
  else
    (Function.update favoritos user (insert pid favs), "✅ Parada añadida a favoritas.")

/-- `del_fav_callback`'s state change (`bot.py` lines 244-249):
`favoritos.get(user, set()).discard(pid)`. -/
def del_fav (favoritos : Int → Finset String) (user : Int) (pid : String) :
    Int → Finset String :=
  Function.update favoritos user ((favoritos user).erase pid)

/-- The bot's two JSON-backed stores, for frame conditions. -/
structure BotState where
  favoritos : Int → Finset String
  alertas : List (String × List Alert)

/-- `toggle_fav_callback` on the whole bot state: it only touches
`favoritos`. -/
def toggle_fav_callback (s : BotState) (user : Int) (pid : String) : BotState × String :=
  let r := toggle_fav s.favoritos user pid
  (⟨r.1, s.alertas⟩, r.2)

/-- `del_fav_callback` on the whole bot state: it only touches
`favoritos`. -/
def del_fav_callback (s : BotState) (user : Int) (pid : String) : BotState × String :=
  (⟨del_fav s.favoritos user pid, s.alertas⟩, "❌ Favorita eliminada.")

/-! ### Favorites: persistence (`guardar_favoritos` / `cargar_favoritos`)

For the round trip the in-memory store is viewed as the list of its
entries (a Python dict is a finite sequence of key-value pairs).
`guardar_favoritos` serializes `{str(k): list(v) for k, v in ...}`;
`cargar_favoritos` parses back `{int(k): set(v) for k, v in ...}`. -/

/-- `guardar_favoritos` (`bot.py` lines 78-80): the JSON shape written to
disk, string keys and list values.  Python's `list(v)` enumerates the set
in an unspecified order; the embedding uses the canonical sorted
enumeration. -/
def guardar_favoritos (favoritos : List (Int × Finset String)) : List (String × List String) :=
  favoritos.map (fun kv => (intToStr kv.1, kv.2.sort (· ≤ ·)))

/-- `cargar_favoritos` (`bot.py` lines 73-76): the in-memory shape read
back from disk, `int(k)` keys and `set(v)` values. -/
def cargar_favoritos (tmp : List (String × List String)) : List (Int × Finset String) :=
  tmp.map (fun kv => (strToInt kv.1, kv.2.toFinset))

/-! ### The periodic alert sweep (`check_alertas`, `bot.py` lines 331-362)

The transit API is a parameter `fetch : String → Option (List Arrival)`:
`fetch pid = some prox` models a 2xx response whose `"proximos"` field is
`prox` (`.get("proximos", [])` makes a missing field the empty list);
`fetch pid = none` models a request that raised or a response on which
`raise_for_status` raised.  Sending the Telegram message is outside the
embedding and assumed to succeed. -/

/-- The firing test of one alert in `check_alertas`:
`prox and prox[0]["direccion"] == dirc and prox[0]["minutos"] <= um`,
with a failed fetch landing in the `except: pass` branch (no firing). -/
def alertFires (fetch : String → Option (List Arrival)) (a : Alert) : Bool :=
  match fetch a.pid with
  | none => false
  | some [] => false
  | some (t :: _) => t.direccion == a.direccion && decide (t.minutos ≤ a.umbral)

/-- The alert store after one sweep of `check_alertas`: each user's `viva`
list keeps exactly the alerts that did not fire, and users whose `viva`
list is empty are dropped from `nuevos`. -/
def check_alertas (fetch : String → Option (List Arrival))
    (alertas : List (String × List Alert)) : List (String × List Alert) :=
  (alertas.map (fun e => (e.1, e.2.filter (fun a => !alertFires fetch a)))).filter
    (fun e => !e.2.isEmpty)

/-- The `(user, alert)` pairs for which one sweep of `check_alertas` sends
a push notification. -/
def notificaciones (fetch : String → Option (List Arrival))
    (alertas : List (String × List Alert)) : List (String × Alert) :=
  alertas.flatMap (fun e => (e.2.filter (fun a => alertFires fetch a)).map (fun a => (e.1, a)))

/-! ### Network-status rendering (`estado_textual`, `bot.py` lines 277-313)

`paradas` is embedded as an association list `stop id → name` in insertion
order (`orden = list(paradas.keys())`), and the arrivals dict `lleg` as a
function with default `[]` (`lleg.get(pid, [])`). -/

/-- `next((t["minutos"] for t in prox if t["direccion"] == d), None)`:
minutes of the first arrival in direction `d`, if any. -/
def nextDir (prox : List Arrival) (d : String) : Option Int :=
  (prox.find? (fun t => t.direccion == d)).map (fun t => t.minutos)

/-- The `'🚇' if t is not None and t < 3 else ''` field of the cell. -/
def marcador (t : Option Int) : String :=
  match t with
  | some m => if m < 3 then "🚇" else ""
  | none => ""

/-- The `t or '—'` field of the cell: Python renders `None` and the falsy
minute value `0` as the em dash, any other int as its decimal string. -/
def minTexto (t : Option Int) : String :=
  match t with
  | some m => if m = 0 then "—" else intToStr m
  | none => "—"

/-- One button label of `estado_textual`:
`f"(nombre) (marker)(minutes)m"`. -/
def celda (nombre : String) (t : Option Int) : String :=
  nombre ++ " " ++ marcador t ++ minTexto t ++ "m"

/-- One keyboard row of `estado_textual` for stop `p = (pid, nombre)`:
left cell towards Armilla, right cell towards Albolote, both as
`(text, callback_data)` with callback `ver:pid`. -/
def estado_fila (lleg : String → List Arrival) (p : String × String) :
    List (String × String) :=
  [(celda p.2 (nextDir (lleg p.1) "Armilla"), "ver:" ++ p.1),
   (celda p.2 (nextDir (lleg p.1) "Albolote"), "ver:" ++ p.1)]

/-- The full inline keyboard of `estado_textual`: one row per stop, in
stop-list order. -/
def estado_teclado (paradas : List (String × String)) (lleg : String → List Arrival) :
    List (List (String × String)) :=
  paradas.map (estado_fila lleg)

/-! ### Inline-menu flow for creating alerts (`handle_callback`,
`bot.py` lines 161-195)

Callback data strings `"action:arg:..."` are embedded as their
`split(":")` part lists. -/

/-- The threshold keyboard the `setalert` handler offers for stop `pid`:
callbacks `alertthr:pid:2|5|8`. -/
def setalert_teclado (pid : String) : List (List String) :=
  [["alertthr", pid, "2"], ["alertthr", pid, "5"], ["alertthr", pid, "8"]]

/-- The direction keyboard the `alertthr` handler offers:
callbacks `alertdir:pid:umbral:Armilla|Albolote`. -/
def alertthr_teclado (pid umbral : String) : List (List String) :=
  [["alertdir", pid, umbral, "Armilla"], ["alertdir", pid, umbral, "Albolote"]]

/-- The alert the `alertdir` handler appends:
`[parts[1], int(parts[2]), parts[3]]`. -/
def alertdir_alerta (parts : List String) : Option Alert :=
  match parts with
  | "alertdir" :: pid :: umbral :: dir :: _ => some ⟨pid, strToInt umbral, dir⟩
  | _ => none

/-- `alertas.setdefault(str(user_id), []).append(alerta)`. -/
def agregar_alerta (alertas : List (String × List Alert)) (user : String) (a : Alert) :
    List (String × List Alert) :=
  if alertas.any (fun e => e.1 == user) then
    alertas.map (fun e => if e.1 == user then (e.1, e.2 ++ [a]) else e)
  else
    alertas ++ [(user, [a])]

/-! ### Arrival listings (`ver_parada_detalle` and `favoritas_cmd`) -/

def NUM_TRENES : Nat := 4

/-- One arrival line `• En (minutos) min → (direccion)`. -/
def linea_tren (t : Arrival) : String :=
  "• En " ++ intToStr t.minutos ++ " min → " ++ t.direccion

/-- The arrival lines of the stop-detail view (`bot.py` lines 208-214):
`info["proximos"][:NUM_TRENES]`. -/
def detalle_lineas (proximos : List Arrival) : List String :=
  (proximos.take NUM_TRENES).map linea_tren

/-- The arrival lines per stop in the favorites view (`bot.py` lines
264-267): `info.get("proximos", [])[:2]`. -/
def favorita_lineas (proximos : List Arrival) : List String :=
  (proximos.take 2).map linea_tren

/-! ### Theorems -/

/-- Any value `toggle_fav` leaves at a user is the old value, an erasure,
or an insertion made under the capacity guard. -/
theorem toggle_fav_apply (f : Int → Finset String) (u : Int) (p : String) (v : Int) :
    (toggle_fav f u p).1 v = f v ∨ (toggle_fav f u p).1 v = (f u).erase p ∨
      ((toggle_fav f u p).1 v = insert p (f u) ∧ (f u).card < 5) := by
  unfold toggle_fav
  by_cases h1 : p ∈ f u <;> by_cases h2 : 5 ≤ (f u).card <;> by_cases h3 : v = u <;>
    simp [h1, h2, h3, Function.update_same, Function.update_noteq, Nat.lt_of_not_le]

/-- C3: the favorites toggle removes a present stop, adds an absent stop
while under the 5-stop cap, and with a full set leaves the store
unchanged and reports the limit. -/
theorem toggle_fav_correct (favoritos : Int → Finset String) (user : Int) (pid : String) :
    (pid ∈ favoritos user →
      (toggle_fav favoritos user pid).1 user = (favoritos user).erase pid ∧
      (toggle_fav favoritos user pid).2 = "❌ Parada eliminada de favoritas.")
    ∧ (pid ∉ favoritos user → (favoritos user).card < 5 →
      (toggle_fav favoritos user pid).1 user = insert pid (favoritos user) ∧
      (toggle_fav favoritos user pid).2 = "✅ Parada añadida a favoritas.")
    ∧ (pid ∉ favoritos user → 5 ≤ (favoritos user).card →
      (toggle_fav favoritos user pid).1 = favoritos ∧
      (toggle_fav favoritos user pid).2 = "⚠️ Límite de 5 favoritas alcanzado.") := by
  refine ⟨fun h => ?_, fun h hc => ?_, fun h hc => ?_⟩
  · simp [toggle_fav, h, Function.update_same]
  · simp [toggle_fav, h, Nat.not_le.mpr hc, Function.update_same]
  · simp [toggle_fav, h, hc]

/-- Witness for `toggle_fav_correct` at a concrete store. -/
theorem toggle_fav_correct_witness :
    (toggle_fav (fun _ => {"A"}) 1 "A").1 1 = ({"A"} : Finset String).erase "A" ∧
    (toggle_fav (fun _ => {"A"}) 1 "B").1 1 = insert "B" ({"A"} : Finset String) := by
  constructor
  · exact ((toggle_fav_correct (fun _ => {"A"}) 1 "A").1 (by decide)).1
  · exact ((toggle_fav_correct (fun _ => {"A"}) 1 "B").2.1 (by decide) (by decide)).1

/-- C4: the at-most-5-favorites invariant is preserved by both favorites
operations, toggle and delete, for every user. -/
theorem favoritos_card_le_five (favoritos : Int → Finset String) (user : Int) (pid : String)
    (h : ∀ u, (favoritos u).card ≤ 5) :
    (∀ u, (((toggle_fav favoritos user pid).1) u).card ≤ 5) ∧
    (∀ u, ((del_fav favoritos user pid) u).card ≤ 5) := by
  constructor
  · intro u
    rcases toggle_fav_apply favoritos user pid u with he | he | ⟨he, hlt⟩
    · rw [he]; exact h u
    · rw [he]; exact le_trans (Finset.card_erase_le) (h user)
    · rw [he]; exact le_trans (Finset.card_insert_le _ _) (by omega)
  · intro u
    unfold del_fav
    by_cases hu : u = user
    · subst hu
      rw [Function.update_same]
      exact le_trans (Finset.card_erase_le) (h u)
    · rw [Function.update_noteq hu]
      exact h u

/-- Witness for `favoritos_card_le_five` at a concrete store. -/
theorem favoritos_card_le_five_witness :
    (∀ u, (((toggle_fav (fun _ => ∅) 1 "A").1) u).card ≤ 5) ∧
    (∀ u, ((del_fav (fun _ => ∅) 1 "A") u).card ≤ 5) :=
  favoritos_card_le_five (fun _ => ∅) 1 "A" (fun _ => by simp)

/-- C6: saving the favorites map to its on-disk JSON shape (string keys,
list values) and loading it back restores the original map, integer keys
and set values included. -/
theorem cargar_guardar_favoritos (favoritos : List (Int × Finset String)) :
    cargar_favoritos (guardar_favoritos favoritos) = favoritos := by
  induction favoritos with
  | nil => rfl
  | cons kv tl ih =>
    unfold cargar_favoritos guardar_favoritos at *
    simp only [List.map_cons, List.cons.injEq]
    exact ⟨by simp [strToInt_intToStr, Finset.sort_toFinset], ih⟩

/-- C7: favorites operations are user-scoped: toggling or deleting for
one user leaves every other user's favorites and the alert store
untouched. -/
theorem fav_ops_frame (s : BotState) (user : Int) (pid : String) (v : Int) (hv : v ≠ user) :
    (toggle_fav_callback s user pid).1.favoritos v = s.favoritos v ∧
    (toggle_fav_callback s user pid).1.alertas = s.alertas ∧
    (del_fav_callback s user pid).1.favoritos v = s.favoritos v ∧
    (del_fav_callback s user pid).1.alertas = s.alertas := by
  refine ⟨?_, rfl, ?_, rfl⟩
  · show (toggle_fav s.favoritos user pid).1 v = s.favoritos v
    unfold toggle_fav
    by_cases h1 : pid ∈ s.favoritos user <;> by_cases h2 : 5 ≤ (s.favoritos user).card <;>
      simp [h1, h2, Function.update_noteq hv]
  · show del_fav s.favoritos user pid v = s.favoritos v
    unfold del_fav
    simp [Function.update_noteq hv]

/-- Witness for `fav_ops_frame` at a concrete state. -/
theorem fav_ops_frame_witness :
    (toggle_fav_callback ⟨fun _ => ∅, []⟩ 1 "A").1.favoritos 2 = (fun _ => (∅ : Finset String)) 2 ∧
    (toggle_fav_callback ⟨fun _ => ∅, []⟩ 1 "A").1.alertas = [] ∧
    (del_fav_callback ⟨fun _ => ∅, []⟩ 1 "A").1.favoritos 2 = (fun _ => (∅ : Finset String)) 2 ∧
    (del_fav_callback ⟨fun _ => ∅, []⟩ 1 "A").1.alertas = [] :=
  fav_ops_frame ⟨fun _ => ∅, []⟩ 1 "A" 2 (by decide)

/-- `alertFires` unfolded: the sweep fires exactly on the first listed
arrival of a successful fetch. -/
theorem alertFires_iff (fetch : String → Option (List Arrival)) (a : Alert) :
    alertFires fetch a = true ↔
      ∃ t rest, fetch a.pid = some (t :: rest) ∧
        t.direccion = a.direccion ∧ t.minutos ≤ a.umbral := by
  unfold alertFires
  cases h : fetch a.pid with
  | none => simp
  | some l =>
    cases l with
    | nil => simp
    | cons t rest =>
      simp only [Bool.and_eq_true, beq_iff_eq, decide_eq_true_eq, Option.some.injEq,
        List.cons.injEq]
      constructor
      · rintro ⟨h1, h2⟩
        exact ⟨t, rest, ⟨rfl, rfl⟩, h1, h2⟩
      · rintro ⟨t2, rest2, ⟨rfl, rfl⟩, h1, h2⟩
        exact ⟨h1, h2⟩

/-- Membership in the notification list of one sweep. -/
theorem mem_notificaciones_iff (fetch : String → Option (List Arrival))
    (alertas : List (String × List Alert)) (u : String) (a : Alert) :
    (u, a) ∈ notificaciones fetch alertas ↔
      ∃ subs, (u, subs) ∈ alertas ∧ a ∈ subs ∧ alertFires fetch a = true := by
  unfold notificaciones
  rw [List.mem_flatMap]
  constructor
  · rintro ⟨e, he, hin⟩
    obtain ⟨b, hb, heq⟩ := List.mem_map.mp hin
    obtain ⟨hbmem, hbf⟩ := List.mem_filter.mp hb
    obtain ⟨h1, h2⟩ := Prod.mk.injEq .. ▸ heq
    refine ⟨e.2, ?_, h2 ▸ hbmem, h2 ▸ hbf⟩
    rw [← h1]
    exact he
  · rintro ⟨subs, he, ha, haf⟩
    refine ⟨(u, subs), he, List.mem_map.mpr ⟨a, List.mem_filter.mpr ⟨ha, haf⟩, rfl⟩⟩

/-- A non-firing alert is never notified. -/
theorem not_mem_notificaciones (fetch : String → Option (List Arrival))
    (alertas : List (String × List Alert)) (u : String) (a : Alert)
    (hf : alertFires fetch a = false) : (u, a) ∉ notificaciones fetch alertas := by
  intro h
  obtain ⟨-, -, -, hfire⟩ := (mem_notificaciones_iff fetch alertas u a).mp h
  rw [hf] at hfire
  cases hfire

/-- A stored non-firing alert survives the sweep in its user's `viva`
list. -/
theorem mem_check_alertas_of_not_fires (fetch : String → Option (List Arrival))
    (alertas : List (String × List Alert)) (u : String) (subs : List Alert) (a : Alert)
    (he : (u, subs) ∈ alertas) (ha : a ∈ subs) (hf : alertFires fetch a = false) :
    (u, subs.filter (fun b => !alertFires fetch b)) ∈ check_alertas fetch alertas ∧
      a ∈ subs.filter (fun b => !alertFires fetch b) := by
  have hmem : a ∈ subs.filter (fun b => !alertFires fetch b) :=
    List.mem_filter.mpr ⟨ha, by simp [hf]⟩
  refine ⟨?_, hmem⟩
  unfold check_alertas
  apply List.mem_filter.mpr
  refine ⟨List.mem_map.mpr ⟨(u, subs), he, rfl⟩, ?_⟩
  have hne : subs.filter (fun b => !alertFires fetch b) ≠ [] := List.ne_nil_of_mem hmem
  simpa using hne

/-- A firing alert is removed from every entry the sweep keeps. -/
theorem not_mem_check_alertas_of_fires (fetch : String → Option (List Arrival))
    (alertas : List (String × List Alert)) (a : Alert) (hf : alertFires fetch a = true) :
    ∀ e ∈ check_alertas fetch alertas, a ∉ e.2 := by
  intro e he hmem
  unfold check_alertas at he
  obtain ⟨he1, -⟩ := List.mem_filter.mp he
  obtain ⟨e0, -, heq⟩ := List.mem_map.mp he1
  rw [← heq] at hmem
  have := (List.mem_filter.mp hmem).2
  rw [hf] at this
  cases this

/-- C1 (amended): each sweep of `check_alertas` notifies and removes a
stored alert exactly when the first listed upcoming arrival of the
fetched response is in the alert's direction with minutes-until-arrival
at most the alert's threshold; otherwise the alert stays stored
unchanged and is not notified. -/
theorem check_alertas_correct (fetch : String → Option (List Arrival))
    (alertas : List (String × List Alert)) (u : String) (subs : List Alert) (a : Alert)
    (he : (u, subs) ∈ alertas) (ha : a ∈ subs) :
    (alertFires fetch a = true ↔
      ∃ t rest, fetch a.pid = some (t :: rest) ∧
        t.direccion = a.direccion ∧ t.minutos ≤ a.umbral)
    ∧ (alertFires fetch a = true →
        (u, a) ∈ notificaciones fetch alertas ∧
        ∀ e ∈ check_alertas fetch alertas, a ∉ e.2)
    ∧ (alertFires fetch a = false →
        (u, a) ∉ notificaciones fetch alertas ∧
        ∃ viva, (u, viva) ∈ check_alertas fetch alertas ∧ a ∈ viva) := by
  refine ⟨alertFires_iff fetch a, fun hf => ⟨?_, ?_⟩, fun hf => ⟨?_, ?_⟩⟩
  · exact (mem_notificaciones_iff fetch alertas u a).mpr ⟨subs, he, ha, hf⟩
  · exact not_mem_check_alertas_of_fires fetch alertas a hf
  · exact not_mem_notificaciones fetch alertas u a hf
  · obtain ⟨h1, h2⟩ := mem_check_alertas_of_not_fires fetch alertas u subs a he ha hf
    exact ⟨_, h1, h2⟩

/-- Witness for `check_alertas_correct`: an alert on stop `P1` towards
Armilla with threshold 2 fires on a response whose first arrival is 1
minute away towards Armilla. -/
theorem check_alertas_correct_witness :
    (("7", Alert.mk "P1" 2 "Armilla") ∈
      notificaciones (fun _ => some [Arrival.mk 1 "Armilla"])
        [("7", [Alert.mk "P1" 2 "Armilla"])]) ∧
    (∀ e ∈ check_alertas (fun _ => some [Arrival.mk 1 "Armilla"])
        [("7", [Alert.mk "P1" 2 "Armilla"])], Alert.mk "P1" 2 "Armilla" ∉ e.2) :=
  (check_alertas_correct (fun _ => some [Arrival.mk 1 "Armilla"])
    [("7", [Alert.mk "P1" 2 "Armilla"])] "7" [Alert.mk "P1" 2 "Armilla"]
    (Alert.mk "P1" 2 "Armilla") (by simp) (by simp)).2.1 (by decide)

/-- C1 fails as stated: a train does approach stop `P1` towards Armilla
within the 2-minute threshold (the second listed arrival), yet the sweep
sends no notification and keeps the alert, because the code only
inspects `prox[0]`. -/
theorem check_alertas_counterexample :
    (∃ t ∈ [Arrival.mk 10 "Albolote", Arrival.mk 1 "Armilla"],
        t.direccion = "Armilla" ∧ t.minutos ≤ 2)
    ∧ notificaciones (fun _ => some [Arrival.mk 10 "Albolote", Arrival.mk 1 "Armilla"])
        [("7", [Alert.mk "P1" 2 "Armilla"])] = []
    ∧ check_alertas (fun _ => some [Arrival.mk 10 "Albolote", Arrival.mk 1 "Armilla"])
        [("7", [Alert.mk "P1" 2 "Armilla"])] = [("7", [Alert.mk "P1" 2 "Armilla"])] := by
  refine ⟨⟨Arrival.mk 1 "Armilla", by simp, rfl, by norm_num⟩, by decide, by decide⟩

/-- C5: a failed fetch for an alert is caught and ignored: the alert is
not notified, stays stored, and the rest of the sweep still fires every
alert whose own fetch and first arrival satisfy its condition. -/
theorem check_alertas_fetch_failure (fetch : String → Option (List Arrival))
    (alertas : List (String × List Alert)) (u : String) (subs : List Alert) (a : Alert)
    (he : (u, subs) ∈ alertas) (ha : a ∈ subs) (hf : fetch a.pid = none) :
    (u, a) ∉ notificaciones fetch alertas
    ∧ (∃ viva, (u, viva) ∈ check_alertas fetch alertas ∧ a ∈ viva)
    ∧ (∀ b ∈ subs, alertFires fetch b = true → (u, b) ∈ notificaciones fetch alertas) := by
  have hnf : alertFires fetch a = false := by
    unfold alertFires
    rw [hf]
  refine ⟨not_mem_notificaciones fetch alertas u a hnf, ?_, ?_⟩
  · obtain ⟨h1, h2⟩ := mem_check_alertas_of_not_fires fetch alertas u subs a he ha hnf
    exact ⟨_, h1, h2⟩
  · intro b hb hfb
    exact (mem_notificaciones_iff fetch alertas u b).mpr ⟨subs, he, hb, hfb⟩

/-- Witness for `check_alertas_fetch_failure`: the fetch for stop `P1`
fails while the fetch for stop `P2` succeeds and fires. -/
theorem check_alertas_fetch_failure_witness :
    (("7", Alert.mk "P1" 2 "Armilla") ∉
      notificaciones (fun p => if p = "P2" then some [Arrival.mk 1 "Armilla"] else none)
        [("7", [Alert.mk "P1" 2 "Armilla", Alert.mk "P2" 2 "Armilla"])])
    ∧ (∃ viva, ("7", viva) ∈
        check_alertas (fun p => if p = "P2" then some [Arrival.mk 1 "Armilla"] else none)
          [("7", [Alert.mk "P1" 2 "Armilla", Alert.mk "P2" 2 "Armilla"])] ∧
        Alert.mk "P1" 2 "Armilla" ∈ viva)
    ∧ (∀ b ∈ [Alert.mk "P1" 2 "Armilla", Alert.mk "P2" 2 "Armilla"],
        alertFires (fun p => if p = "P2" then some [Arrival.mk 1 "Armilla"] else none) b = true →
        ("7", b) ∈ notificaciones
          (fun p => if p = "P2" then some [Arrival.mk 1 "Armilla"] else none)
          [("7", [Alert.mk "P1" 2 "Armilla", Alert.mk "P2" 2 "Armilla"])]) :=
  check_alertas_fetch_failure
    (fun p => if p = "P2" then some [Arrival.mk 1 "Armilla"] else none)
    [("7", [Alert.mk "P1" 2 "Armilla", Alert.mk "P2" 2 "Armilla"])] "7"
    [Alert.mk "P1" 2 "Armilla", Alert.mk "P2" 2 "Armilla"] (Alert.mk "P1" 2 "Armilla")
    (by simp) (by simp) (by decide)

/-- No integer's decimal string is the em dash. -/
theorem intToStr_ne_emdash (m : Int) : intToStr m ≠ "—" := by
  intro h
  have hdata : (intToStr m).data = ['—'] := by rw [h]
  unfold intToStr at hdata
  split at hdata
  · have h2 : '-' :: (natToStr (-m).toNat).data = ['—'] := hdata
    injection h2 with h3 h4
    exact absurd h3 (by decide)
  · have h2 : natDigits m.toNat = ['—'] := hdata
    have hmem : '—' ∈ natDigits m.toNat := by rw [h2]; exact List.mem_singleton.mpr rfl
    obtain ⟨d, hd, hcd⟩ := mem_natDigits _ _ hmem
    have hrange := digitChar_isDigitLike d hd
    rw [← hcd] at hrange
    exact absurd hrange.2 (by decide)

/-- C2 (amended): row `i` of the network-status keyboard is built from
stop `i` alone — left cell stop `i` towards Armilla, right cell stop `i`
towards Albolote, both with callback `ver:` stop `i` — with rows in
stop-list order; there is no pairing with the reverse-order stop. -/
theorem estado_teclado_rows (paradas : List (String × String)) (lleg : String → List Arrival)
    (i : Nat) (p : String × String) (h : paradas[i]? = some p) :
    (estado_teclado paradas lleg)[i]? = some (estado_fila lleg p)
    ∧ (estado_fila lleg p).length = 2
    ∧ ∀ c ∈ estado_fila lleg p, c.2 = "ver:" ++ p.1 := by
  refine ⟨?_, rfl, ?_⟩
  · unfold estado_teclado
    rw [List.getElem?_map, h]
    rfl
  · intro c hc
    unfold estado_fila at hc
    simp only [List.mem_cons, List.not_mem_nil, or_false] at hc
    rcases hc with rfl | rfl <;> rfl

/-- Witness for `estado_teclado_rows` at a two-stop network. -/
theorem estado_teclado_rows_witness :
    (estado_teclado [("A", "Alpha"), ("B", "Beta")] (fun _ => []))[0]? =
      some (estado_fila (fun _ => []) ("A", "Alpha"))
    ∧ (estado_fila (fun _ => []) ("A", "Alpha")).length = 2
    ∧ ∀ c ∈ estado_fila (fun _ => []) ("A", "Alpha"), c.2 = "ver:" ++ "A" :=
  estado_teclado_rows [("A", "Alpha"), ("B", "Beta")] (fun _ => []) 0 ("A", "Alpha") rfl

/-- C2 fails as stated: in a two-stop network the right-hand cell of row
0 is stop 0 itself (callback `ver:A`), not its reverse-order counterpart
stop 1 (callback `ver:B`). -/
theorem estado_teclado_counterexample :
    (((estado_teclado [("A", "Alpha"), ("B", "Beta")] (fun _ => [])).getD 0 []).getD 1
      ("", "")).2 = "ver:A"
    ∧ ("ver:A" : String) ≠ "ver:B" := by
  exact ⟨rfl, by decide⟩

/-- C8 (amended): a cell shows the train marker exactly when the first
listed arrival in its direction — the one `next(...)` selects — has
minutes < 3; it shows the em dash exactly when no arrival in its
direction exists or that first arrival's minutes value is 0; a 0-minute
first arrival renders the marker followed by the em dash. -/
theorem celda_marcador (prox : List Arrival) (d : String) :
    (marcador (nextDir prox d) = "🚇" ↔ ∃ m, nextDir prox d = some m ∧ m < 3)
    ∧ (minTexto (nextDir prox d) = "—" ↔ nextDir prox d = none ∨ nextDir prox d = some 0)
    ∧ (nextDir prox d = none ↔ ∀ t ∈ prox, t.direccion ≠ d)
    ∧ (∀ nombre, nextDir prox d = some 0 →
        celda nombre (nextDir prox d) = nombre ++ " " ++ "🚇" ++ "—" ++ "m") := by
  refine ⟨?_, ?_, ?_, fun nombre h0 => ?_⟩
  · cases h : nextDir prox d with
    | none => simp [marcador]
    | some m =>
      by_cases hm : m < 3
      · simp [marcador, hm]
      · simp only [marcador, if_neg hm]
        constructor
        · intro he
          exact absurd he (by decide)
        · rintro ⟨m2, hm2, hlt⟩
          injection hm2 with hm2
          exact absurd (hm2 ▸ hlt) hm
  · cases h : nextDir prox d with
    | none => simp [minTexto]
    | some m =>
      by_cases hm : m = 0
      · simp [minTexto, hm]
      · simp only [minTexto, if_neg hm]
        constructor
        · intro he
          exact absurd he (intToStr_ne_emdash m)
        · rintro (hm2 | hm2)
          · exact absurd hm2 (by simp)
          · injection hm2 with hm2
            exact absurd hm2 hm
  · unfold nextDir
    rw [Option.map_eq_none', List.find?_eq_none]
    constructor
    · intro h t ht
      simpa using h t ht
    · intro h t ht
      simpa using h t ht
  · rw [h0]
    rfl

/-- Witness for `celda_marcador` with a single 0-minute arrival. -/
theorem celda_marcador_witness :
    celda "X" (nextDir [Arrival.mk 0 "Armilla"] "Armilla") = "X" ++ " " ++ "🚇" ++ "—" ++ "m" :=
  (celda_marcador [Arrival.mk 0 "Armilla"] "Armilla").2.2.2 "X" (by decide)

/-- C8 fails as stated: an arrival towards Armilla with 1 minute < 3
exists, yet no marker is shown, because the first listed arrival in that
direction is 5 minutes away. -/
theorem celda_marcador_counterexample :
    (∃ t ∈ [Arrival.mk 5 "Armilla", Arrival.mk 1 "Armilla"],
        t.direccion = "Armilla" ∧ t.minutos < 3)
    ∧ marcador (nextDir [Arrival.mk 5 "Armilla", Arrival.mk 1 "Armilla"] "Armilla") = ""
    ∧ ("" : String) ≠ "🚇" := by decide

/-- Helper: an `alertdir` callback whose threshold part is one of the
menu strings and whose direction part is one of the menu directions
yields an alert with threshold in 2, 5, 8 and direction Armilla or
Albolote. -/
theorem alertdir_alerta_values (pid um dir : String)
    (hum : um ∈ (["2", "5", "8"] : List String))
    (hdir : dir ∈ (["Armilla", "Albolote"] : List String)) :
    ∃ a, alertdir_alerta ["alertdir", pid, um, dir] = some a ∧ a.pid = pid ∧
      a.umbral ∈ ([2, 5, 8] : List Int) ∧
      a.direccion ∈ (["Armilla", "Albolote"] : List String) ∧
      ∀ user, agregar_alerta [] user a = [(user, [a])] := by
  have humz : strToInt um ∈ ([2, 5, 8] : List Int) := by
    simp only [List.mem_cons, List.not_mem_nil, or_false] at hum
    rcases hum with rfl | rfl | rfl <;> decide
  exact ⟨⟨pid, strToInt um, dir⟩, rfl, rfl, humz, hdir, fun user => rfl⟩

/-- C9: every alert reachable through the inline-menu chain — a
threshold button offered by the `setalert` handler, then, after the
`alertthr` handler destructures it as `parts[1]`, `parts[2]`, a
direction button it offers — is for the stop the chain started from,
with threshold in 2, 5, 8 and direction Armilla or Albolote; and
`agregar_alerta` stores exactly that alert under the user's key. -/
theorem menu_alert_values (pid0 : String) (d1 : List String) (h1 : d1 ∈ setalert_teclado pid0)
    (pid um : String) (rest : List String) (hd1 : d1 = "alertthr" :: pid :: um :: rest)
    (d2 : List String) (h2 : d2 ∈ alertthr_teclado pid um) :
    ∃ a, alertdir_alerta d2 = some a ∧ a.pid = pid0 ∧
      a.umbral ∈ ([2, 5, 8] : List Int) ∧
      a.direccion ∈ (["Armilla", "Albolote"] : List String) ∧
      ∀ user, agregar_alerta [] user a = [(user, [a])] := by
  unfold setalert_teclado at h1
  simp only [List.mem_cons, List.not_mem_nil, or_false] at h1
  rcases h1 with rfl | rfl | rfl <;>
    · simp only [List.cons.injEq] at hd1
      obtain ⟨-, rfl, rfl, -⟩ := hd1
      unfold alertthr_teclado at h2
      simp only [List.mem_cons, List.not_mem_nil, or_false] at h2
      rcases h2 with rfl | rfl <;>
        exact alertdir_alerta_values pid0 _ _ (by decide) (by decide)

/-- Witness for `menu_alert_values` along the concrete chain
`setalert:P1` → threshold 5 → direction Albolote. -/
theorem menu_alert_values_witness :
    ∃ a, alertdir_alerta ["alertdir", "P1", "5", "Albolote"] = some a ∧ a.pid = "P1" ∧
      a.umbral ∈ ([2, 5, 8] : List Int) ∧
      a.direccion ∈ (["Armilla", "Albolote"] : List String) ∧
      ∀ user, agregar_alerta [] user a = [(user, [a])] :=
  menu_alert_values "P1" ["alertthr", "P1", "5"] (by simp [setalert_teclado])
    "P1" "5" [] rfl ["alertdir", "P1", "5", "Albolote"] (by simp [alertthr_teclado])

/-- C10: the stop-detail view renders at most the first `NUM_TRENES = 4`
arrivals of the response and the favorites view at most the first 2, in
response order. -/
theorem lineas_truncadas (proximos : List Arrival) :
    (detalle_lineas proximos).length = min 4 proximos.length
    ∧ (favorita_lineas proximos).length = min 2 proximos.length
    ∧ (∀ i, i < 4 → (detalle_lineas proximos)[i]? = (proximos[i]?).map linea_tren)
    ∧ (∀ i, i < 2 → (favorita_lineas proximos)[i]? = (proximos[i]?).map linea_tren) := by
  refine ⟨?_, ?_, fun i hi => ?_, fun i hi => ?_⟩
  · simp [detalle_lineas, NUM_TRENES]
  · simp [favorita_lineas]
  · unfold detalle_lineas NUM_TRENES
    rw [List.getElem?_map, List.getElem?_take, if_pos hi]
  · unfold favorita_lineas
    rw [List.getElem?_map, List.getElem?_take, if_pos hi]

/-- Witness for `lineas_truncadas` on a five-arrival response. -/
theorem lineas_truncadas_witness :
    (detalle_lineas [Arrival.mk 1 "Armilla", Arrival.mk 4 "Albolote", Arrival.mk 7 "Armilla",
        Arrival.mk 9 "Albolote", Arrival.mk 12 "Armilla"]).length = min 4 5
    ∧ (detalle_lineas [Arrival.mk 1 "Armilla", Arrival.mk 4 "Albolote", Arrival.mk 7 "Armilla",
        Arrival.mk 9 "Albolote", Arrival.mk 12 "Armilla"])[0]? =
      some (linea_tren (Arrival.mk 1 "Armilla")) := by
  have h := lineas_truncadas [Arrival.mk 1 "Armilla", Arrival.mk 4 "Albolote",
    Arrival.mk 7 "Armilla", Arrival.mk 9 "Albolote", Arrival.mk 12 "Armilla"]
  exact ⟨h.1, h.2.2.1 0 (by decide)⟩

end GranaMetro
